import Mathlib

/-!
Verification development for the x-outpost context-construction and
prioritization engine: the tweet pipeline of the refined variant (part_002),
together with the earlier variants in llm_response_context.mjs and part_004
that implement the same operations and that several claims cite.

Embedding conventions.  Documents become structures whose optional fields are
Option; Mongo collections become lists of documents, findOne returning the
first match and updateOne updating the first match; floating point weights
become rationals; timestamps become naturals (milliseconds); JavaScript
truthiness of strings and numbers is modelled explicitly where the source
relies on it (the a || b || 0 chains, the cached?.description test, the
filter(Boolean) calls).  The document store itself is modelled as reliable;
the external vision collaborator is a parameter returning Except, and the
one whole-pipeline failure point a claim needs (the author aggregation, the
awaited gather of buildContext) is modelled as an explicit outcome argument
mirroring the try/catch around it.  A query's sort is realized with a stable
insertion sort over the query's comparator.
-/

namespace XOutpost

/-- JavaScript falsy-coalescing over numeric alternatives (the source's
a || b || 0 chains): a missing or zero value falls through to the next. -/
def firstTruthyNat : List (Option Nat) → Nat
  | [] => 0
  | some n :: rest => if n = 0 then firstTruthyNat rest else n
  | none :: rest => firstTruthyNat rest

/-- JavaScript string-or-fallback (the source's s || fallback): the empty
string is falsy and falls back. -/
def jsOrStr (s fallback : String) : String := if s = "" then fallback else s

/-- String-or-fallback through an optional field (the source's o?.f || fallback). -/
def jsOrStrOpt (s : Option String) (fallback : String) : String :=
  match s with
  | some v => jsOrStr v fallback
  | none => fallback

/-- JavaScript template interpolation of a possibly missing field: a missing
value prints as the literal text undefined. -/
def jsShow (s : Option String) : String := s.getD "undefined"

/-- Array.prototype.join with a separator. -/
def joinSep (sep : String) : List String → String
  | [] => ""
  | [x] => x
  | x :: y :: rest => x ++ sep ++ joinSep sep (y :: rest)

/-- Character-wise lower casing (the source's toLowerCase on ASCII handles). -/
def lowerStr (s : String) : String := ⟨s.data.map Char.toLower⟩

/-- Whether the first character list starts the second. -/
def startsWithChars : List Char → List Char → Bool
  | [], _ => true
  | _ :: _, [] => false
  | a :: as, b :: bs => a == b && startsWithChars as bs

/-- Plain substring test, the meaning of the source's literal regexes (no
metacharacter beyond the alternation, handled by disjunction at call sites). -/
def containsSub (big small : String) : Bool :=
  (List.range (big.data.length + 1)).any (fun i => startsWithChars small.data (big.data.drop i))

/-- The string small occurs contiguously inside big. -/
def containsStr (big small : String) : Prop :=
  ∃ pre post : List Char, big.data = pre ++ small.data ++ post

/-! ## Data model -/

/-- One entry of a post's referenced_tweets list. -/
structure RefTweet where
  rtype : String
  id : String
deriving DecidableEq

/-- One entry of a post's mediaData list. -/
structure MediaItem where
  mtype : String
  url : String
deriving DecidableEq

/-- The nested public_metrics document of posts and authors. -/
structure PublicMetrics where
  like_count : Option Nat
  retweet_count : Option Nat
  reply_count : Option Nat
  followers_count : Option Nat
  tweet_count : Option Nat
deriving DecidableEq

/-- The processing_status map written by the context builder. -/
structure ProcessingStatus where
  llm_context : Option Bool
  llm_context_at : Option Nat
deriving DecidableEq

/-- A post document of the tweets collection. -/
structure Tweet where
  id : String
  author_id : String
  text : String
  created_at : Nat
  in_reply_to_user_id : Option String
  referenced_tweets : Option (List RefTweet)
  mediaData : Option (List MediaItem)
  public_metrics : Option PublicMetrics
  like_count : Option Nat
  retweet_count : Option Nat
  reply_count : Option Nat
  engagement_score : Option ℚ
  processing_status : ProcessingStatus
deriving DecidableEq

/-- An author document of the authors collection. -/
structure Author where
  id : String
  username : String
  name : Option String
  public_metrics : Option PublicMetrics
  followers_count : Option Nat
  tweet_count : Option Nat
deriving DecidableEq

/-- A response record of the responses collection, keyed by tweet_id. -/
structure ResponseRec where
  tweet_id : String
  author_id : Option String
  author_username : Option String
  context : Option String
  prompt : Option String
  response : Option String
  processed_by : Option String
  processed_at : Option Nat
  created_at : Option Nat
  author_priority_score : Option ℚ
deriving DecidableEq

/-- A cache entry of the image_visions collection, keyed by url. -/
structure VisionEntry where
  url : String
  description : String
  created_at : Option Nat
deriving DecidableEq

/-- The parsed configuration of part_002 (weights and limits with their
defaults from the source). -/
structure Config where
  twitterUsername : String
  twitterUserId : String
  alwaysReplyToUsernames : List String
  wLikes : ℚ
  wRetweets : ℚ
  wReplies : ℚ
  wFollowers : ℚ
  wTweets : ℚ
  wInteractions : ℚ
  tweetFetch : Nat
  conversationMaxTweets : Nat
  recentContextDays : Nat
  recentContextLimit : Nat

/-- The default configuration values of part_002. -/
def defaultConfig : Config where
  twitterUsername := "bobthesnek"
  twitterUserId := "self"
  alwaysReplyToUsernames := []
  wLikes := 2
  wRetweets := 3 / 2
  wReplies := 1
  wFollowers := 1 / 2
  wTweets := 3 / 10
  wInteractions := 1 / 5
  tweetFetch := 50
  conversationMaxTweets := 5
  recentContextDays := 7
  recentContextLimit := 3

/-- findOne on the tweets collection: the first document with the id. -/
def findTweet (tweets : List Tweet) (tid : String) : Option Tweet :=
  tweets.find? (fun t => t.id == tid)

/-! ## Post selector (getPrioritizedTweets, part_002 125-165 and part_004 31-67) -/

/-- The filter shared by all three selector queries: not authored by the
operating account, and llm_context not already true. -/
def commonFilter (cfg : Config) (t : Tweet) : Bool :=
  t.author_id != cfg.twitterUserId && !(t.processing_status.llm_context == some true)

/-- The i-flagged mention regex: the text contains @username, case folded. -/
def matchesMention (cfg : Config) (t : Tweet) : Bool :=
  containsSub (lowerStr t.text) (lowerStr ("@" ++ cfg.twitterUsername))

/-- The reply query: in_reply_to_user_id equals the operating account id. -/
def matchesReply (cfg : Config) (t : Tweet) : Bool :=
  t.in_reply_to_user_id == some cfg.twitterUserId

/-- The related-keywords alternation regex, case folded. -/
def matchesKeyword (cfg : Config) (t : Tweet) : Bool :=
  containsSub (lowerStr t.text) (lowerStr "#AI")
  || containsSub (lowerStr t.text) (lowerStr "#MachineLearning")
  || containsSub (lowerStr t.text) (lowerStr ("@" ++ cfg.twitterUsername))

/-- BSON descending comparison of optional engagement scores: a missing score
(lowest in ascending BSON order) sorts after every number when descending. -/
def engAfter : Option ℚ → Option ℚ → Prop
  | some x, some y => y < x
  | some _, none => True
  | none, some _ => False
  | none, none => False

instance : ∀ x y, Decidable (engAfter x y)
  | some x, some y => inferInstanceAs (Decidable (y < x))
  | some _, none => inferInstanceAs (Decidable True)
  | none, some _ => inferInstanceAs (Decidable False)
  | none, none => inferInstanceAs (Decidable False)

/-- The selector queries' sort order: engagement_score descending, then
created_at descending. -/
def tweetBefore (a b : Tweet) : Prop :=
  if a.engagement_score = b.engagement_score then b.created_at ≤ a.created_at
  else engAfter a.engagement_score b.engagement_score

instance : DecidableRel tweetBefore := fun a b => by
  unfold tweetBefore
  infer_instance

/-- sort then limit of one selector query. -/
def sortLimit (cfg : Config) (l : List Tweet) : List Tweet :=
  (List.insertionSort tweetBefore l).take cfg.tweetFetch

/-- The mentions query. -/
def mentionQuery (cfg : Config) (tweets : List Tweet) : List Tweet :=
  sortLimit cfg (tweets.filter (fun t => commonFilter cfg t && matchesMention cfg t))

/-- The replies query. -/
def replyQuery (cfg : Config) (tweets : List Tweet) : List Tweet :=
  sortLimit cfg (tweets.filter (fun t => commonFilter cfg t && matchesReply cfg t))

/-- The related-keywords query. -/
def keywordQuery (cfg : Config) (tweets : List Tweet) : List Tweet :=
  sortLimit cfg (tweets.filter (fun t => commonFilter cfg t && matchesKeyword cfg t))

/-- One step of building the JavaScript Map keyed by tweet id: setting an
existing key overwrites its value in place, keeping the first-insertion
position; a new key is appended. -/
def mapSet (m : List (String × Tweet)) (k : String) (v : Tweet) : List (String × Tweet) :=
  if m.any (fun p => p.1 == k) then m.map (fun p => if p.1 == k then (k, v) else p)
  else m ++ [(k, v)]

/-- The values, in order, of the Map built over the list (the source's
Array.from(new Map(list.map(t => [t.id, t])).values())). -/
def jsMapValues (l : List Tweet) : List Tweet :=
  (l.foldl (fun m t => mapSet m t.id t) []).map Prod.snd

/-- part_002 getPrioritizedTweets: the three queries unioned and de-duplicated
by post id through the Map. -/
def getPrioritizedTweets (cfg : Config) (tweets : List Tweet) : List Tweet :=
  jsMapValues (mentionQuery cfg tweets ++ replyQuery cfg tweets ++ keywordQuery cfg tweets)

/-- part_004 getPrioritizedTweets: the same three queries concatenated with no
de-duplication step. -/
def getPrioritizedTweetsNoDedup (cfg : Config) (tweets : List Tweet) : List Tweet :=
  mentionQuery cfg tweets ++ replyQuery cfg tweets ++ keywordQuery cfg tweets

/-! ## Engagement scorer (part_002 172-220) -/

/-- The like counter as read by calculateEngagementScore: nested value, else
flat value, else zero, with JavaScript falsy fall-through. -/
def likeVal (t : Tweet) : Nat :=
  firstTruthyNat [t.public_metrics.bind PublicMetrics.like_count, t.like_count]

/-- The retweet counter as read by calculateEngagementScore. -/
def retweetVal (t : Tweet) : Nat :=
  firstTruthyNat [t.public_metrics.bind PublicMetrics.retweet_count, t.retweet_count]

/-- The reply counter as read by calculateEngagementScore. -/
def replyVal (t : Tweet) : Nat :=
  firstTruthyNat [t.public_metrics.bind PublicMetrics.reply_count, t.reply_count]

/-- part_002 calculateEngagementScore: the weighted linear combination. -/
def calculateEngagementScore (cfg : Config) (t : Tweet) : ℚ :=
  likeVal t * cfg.wLikes + retweetVal t * cfg.wRetweets + replyVal t * cfg.wReplies

/-- The enrichment query filter of enrichTweetsWithEngagement: no
engagement_score yet, a like counter present (nested or flat), created_at at
or after the start date. -/
def needsEnrichment (t : Tweet) (startDate : Nat) : Bool :=
  t.engagement_score.isNone
  && ((t.public_metrics.bind PublicMetrics.like_count).isSome || t.like_count.isSome)
  && decide (startDate ≤ t.created_at)

/-- Whether any raw engagement counter field is present on the post, nested or
flat (the wording of the specification's selection criterion). -/
def hasAnyCounter (t : Tweet) : Bool :=
  (t.public_metrics.bind PublicMetrics.like_count).isSome || t.like_count.isSome
  || (t.public_metrics.bind PublicMetrics.retweet_count).isSome || t.retweet_count.isSome
  || (t.public_metrics.bind PublicMetrics.reply_count).isSome || t.reply_count.isSome

/-- One item of the ordered:false bulkWrite: items succeed or fail
independently, failedIds being the ids whose individual update failed. -/
def enrichOne (cfg : Config) (startDate : Nat) (failedIds : List String) (t : Tweet) : Tweet :=
  if needsEnrichment t startDate && !(failedIds.contains t.id)
  then { t with engagement_score := some (calculateEngagementScore cfg t) } else t

/-- part_002 enrichTweetsWithEngagement over the whole collection. -/
def enrichTweetsWithEngagement (cfg : Config) (startDate : Nat) (failedIds : List String)
    (tweets : List Tweet) : List Tweet :=
  tweets.map (enrichOne cfg startDate failedIds)

/-! ## Conversation reconstructor (part_002 227-272; llm_response_context.mjs 321-345) -/

/-- A reconstructed thread entry: a tweet or the synthetic separator. -/
inductive ConvEntry where
  | tweet (t : Tweet)
  | separator (text : String)
deriving DecidableEq

/-- The first replied_to reference of a tweet, if any. -/
def repliedToNext (t : Tweet) : Option String :=
  match (t.referenced_tweets.getD []).find? (fun r => r.rtype == "replied_to") with
  | some r => some r.id
  | none => none

/-- The while loop of part_002 _getConversationContext.  One iteration checks
the length bound and the visited set, adds the current id to visited, looks
the tweet up, stops if absent, otherwise pushes it on the front of the
accumulator and follows its replied_to reference.  Each iteration grows the
accumulator, which the guard bounds by maxT+10, so the fuel maxT+11 strictly
exceeds the possible number of iterations and is never exhausted: the
function computes exactly what the loop does. -/
def conversationLoop (tweets : List Tweet) (maxT : Nat) :
    Nat → Option String → List String → List Tweet → List Tweet
  | 0, _, _, acc => acc
  | _ + 1, none, _, acc => acc
  | fuel + 1, some cur, visited, acc =>
    if acc.length < maxT + 10 && !(visited.contains cur) then
      match findTweet tweets cur with
      | none => acc
      | some tw => conversationLoop tweets maxT fuel (repliedToNext tw) (cur :: visited) (tw :: acc)
    else acc

/-- JavaScript slice(-n): the last n elements, except that slice(-0) is the
whole array. -/
def jsSliceLast (n : Nat) (l : List Tweet) : List Tweet :=
  if n = 0 then l else l.drop (l.length - n)

/-- The separator text carrying the omitted count. -/
def omittedText (n : Nat) : String := "... (" ++ toString n ++ " tweets omitted) ..."

/-- part_002 _trimConversation: a thread longer than maxT keeps the first
ceil(maxT/2) and the last floor(maxT/2) tweets around one separator entry. -/
def trimConversation (maxT : Nat) (tweets : List Tweet) : List ConvEntry :=
  if tweets.length ≤ maxT then tweets.map ConvEntry.tweet
  else (tweets.take ((maxT + 1) / 2)).map ConvEntry.tweet
    ++ [ConvEntry.separator (omittedText (tweets.length - maxT))]
    ++ (jsSliceLast (maxT / 2) tweets).map ConvEntry.tweet

/-- part_002 _getConversationContext: the guarded walk, then the trim. -/
def getConversationContext (tweets : List Tweet) (maxT : Nat) (tid : String) : List ConvEntry :=
  trimConversation maxT (conversationLoop tweets maxT (maxT + 11) (some tid) [] [])

/-- The conversation-gathering while loop of getTweetResponseContext
(llm_response_context.mjs 324-333): follows referenced_tweets[0] with no
visited-set guard and no length bound.  Fuel indexed; none means the loop has
not terminated within the given number of iterations. -/
def gatherConversationLoop (tweets : List Tweet) : Nat → Tweet → List Tweet → Option (List Tweet)
  | 0, _, _ => none
  | fuel + 1, cur, acc =>
    match cur.referenced_tweets with
    | none => some acc
    | some [] => some acc
    | some (r :: _) =>
      match findTweet tweets r.id with
      | none => some acc
      | some tw => gatherConversationLoop tweets fuel tw (tw :: acc)

/-! ## Author ranker and classifier (part_002 292-408; llm_response_context.mjs 86-104) -/

/-- The three classification buckets. -/
structure Classification where
  priority : List Author
  frequent : List Author
  new : List Author
deriving DecidableEq

/-- Distinct author_id over response records created at or after the cutoff
(getFrequentAuthors / _getFrequentAuthorIds). -/
def frequentAuthorIds (responses : List ResponseRec) (cutoff : Nat) : List String :=
  ((responses.filter (fun r => match r.created_at with
      | some c => decide (cutoff ≤ c)
      | none => false)).filterMap ResponseRec.author_id).dedup

/-- part_002 getTargetAuthorsClassification: the forEach if / else-if / else
chain puts each author in exactly one bucket. -/
def getTargetAuthorsClassification (alwaysReplyTo frequentIds : List String)
    (authors : List Author) : Classification where
  priority := authors.filter (fun a => alwaysReplyTo.contains (lowerStr a.username))
  frequent := authors.filter (fun a =>
    !alwaysReplyTo.contains (lowerStr a.username) && frequentIds.contains a.id)
  new := authors.filter (fun a =>
    !alwaysReplyTo.contains (lowerStr a.username) && !frequentIds.contains a.id)

/-- getTargetAuthors of llm_response_context.mjs 86-96: three independent
filters; frequent and new ignore the allow-list entirely. -/
def getTargetAuthors (alwaysReplyTo frequentIds : List String)
    (authors : List Author) : Classification where
  priority := authors.filter (fun a => alwaysReplyTo.contains (lowerStr a.username))
  frequent := authors.filter (fun a => frequentIds.contains a.id)
  new := authors.filter (fun a => !frequentIds.contains a.id)

/-- Mongo $ifNull over the nested and the flat counter (null coalescing, not
falsy coalescing). -/
def ifNullNat (a b : Option Nat) : Nat :=
  match a with
  | some x => x
  | none => match b with
    | some y => y
    | none => 0

/-- The followers count read by the prioritizeAuthors aggregation. -/
def followersNum (a : Author) : Nat :=
  ifNullNat (a.public_metrics.bind PublicMetrics.followers_count) a.followers_count

/-- The tweet count read by the prioritizeAuthors aggregation. -/
def tweetNum (a : Author) : Nat :=
  ifNullNat (a.public_metrics.bind PublicMetrics.tweet_count) a.tweet_count

/-- The size of the $lookup join: response records whose author_id matches. -/
def interactionCount (responses : List ResponseRec) (a : Author) : Nat :=
  (responses.filter (fun r => r.author_id == some a.id)).length

/-- The aggregation's priorityScore. -/
def priorityScore (cfg : Config) (responses : List ResponseRec) (a : Author) : ℚ :=
  followersNum a * cfg.wFollowers + tweetNum a * cfg.wTweets
    + interactionCount responses a * cfg.wInteractions

/-- Descending order on scored authors. -/
def scoredDesc (p q : Author × ℚ) : Prop := q.2 ≤ p.2

instance : DecidableRel scoredDesc := fun p q => inferInstanceAs (Decidable (q.2 ≤ p.2))

instance : IsTotal (Author × ℚ) scoredDesc := ⟨fun p q => le_total q.2 p.2⟩

instance : IsTrans (Author × ℚ) scoredDesc := ⟨fun _ _ _ h1 h2 => le_trans h2 h1⟩

/-- part_002 prioritizeAuthors: one aggregation scores every author and sorts
descending; the surrounding catch turns any aggregation failure into the
empty list (part_002 350-353). -/
def prioritizeAuthors (cfg : Config) (responses : List ResponseRec) (authors : List Author)
    (aggregationOk : Bool) : List (Author × ℚ) :=
  if aggregationOk then
    List.insertionSort scoredDesc (authors.map (fun a => (a, priorityScore cfg responses a)))
  else []

/-! ## Image description cache (part_002 466-512; llm_response_context.mjs 147-175) -/

/-- The fallback text of the per-url catch. -/
def visionFallback : String := "Image description unavailable due to an error."

/-- The cache test cached?.description of part_002: a hit needs an entry for
the url whose description is a non-empty string. -/
def visionHit (cache : List VisionEntry) (url : String) : Option String :=
  match cache.find? (fun e => e.url == url) with
  | some e => if e.description == "" then none else some e.description
  | none => none

/-- updateOne({url}, {$set:{url, description, created_at}}, {upsert:true}):
update the first entry with the url, else insert. -/
def upsertVision (url description : String) (now : Nat) :
    List VisionEntry → List VisionEntry
  | [] => [{ url := url, description := description, created_at := some now }]
  | e :: es =>
    if e.url == url then { url := url, description := description, created_at := some now } :: es
    else e :: upsertVision url description now es

/-- One url of _processImagesWithConcurrency: cache test, collaborator call,
cache write; a collaborator failure is caught and yields the fallback text
with the cache untouched.  Returns (description, cache after, collaborator
invocations). -/
def processImage (collab : String → Except Unit String) (now : Nat)
    (cache : List VisionEntry) (url : String) : String × List VisionEntry × Nat :=
  match visionHit cache url with
  | some d => (d, cache, 0)
  | none =>
    match collab url with
    | .ok d => (d, upsertVision url d now cache, 1)
    | .error _ => (visionFallback, cache, 1)

/-- All urls in order, threading the cache (the p-limit pool preserves result
order; the model runs the urls in sequence). -/
def processImagesLoop (collab : String → Except Unit String) (now : Nat) :
    List VisionEntry → List String → List String × List VisionEntry × Nat
  | cache, [] => ([], cache, 0)
  | cache, u :: rest =>
    let r := processImage collab now cache u
    let rs := processImagesLoop collab now r.2.1 rest
    (r.1 :: rs.1, rs.2.1, r.2.2 + rs.2.2)

/-- _processImagesWithConcurrency: every url processed, then filter(Boolean). -/
def processImagesWithConcurrency (collab : String → Except Unit String) (now : Nat)
    (cache : List VisionEntry) (urls : List String) : List String × List VisionEntry × Nat :=
  let r := processImagesLoop collab now cache urls
  (r.1.filter (fun d => d != ""), r.2.1, r.2.2)

/-- The photo urls of a tweet's media (mediaData?.filter photo, or empty). -/
def photoUrls (t : Tweet) : List String :=
  ((t.mediaData.getD []).filter (fun m => m.mtype == "photo")).map MediaItem.url

/-- part_002 _getVisionContext. -/
def getVisionContext (collab : String → Except Unit String) (now : Nat)
    (cache : List VisionEntry) (t : Tweet) : String × List VisionEntry × Nat :=
  match photoUrls t with
  | [] => ("", cache, 0)
  | u :: us =>
    let r := processImagesWithConcurrency collab now cache (u :: us)
    ((if r.1.isEmpty then "" else "Image Descriptions:\n" ++ joinSep "\n" r.1), r.2.1, r.2.2)

/-! ## Recent-interaction digest (part_002 520-547) -/

/-- The response filter of _getRecentContext.  The source's object literal
repeats the $ne key, so the surviving constraints are exists and $ne on the
empty string; the window is the trailing recentContextDays. -/
def recentFilter (cfg : Config) (now : Nat) (aid : String) (r : ResponseRec) : Bool :=
  r.author_id == some aid
  && r.response.isSome && !(r.response == some "")
  && (match r.created_at with
      | some c => decide (now - cfg.recentContextDays * 86400000 ≤ c)
      | none => false)

/-- Descending creation order of response records. -/
def createdDesc (a b : ResponseRec) : Prop := b.created_at.getD 0 ≤ a.created_at.getD 0

instance : DecidableRel createdDesc := fun a b =>
  inferInstanceAs (Decidable (b.created_at.getD 0 ≤ a.created_at.getD 0))

/-- One formatted prior interaction. -/
def formatRecentItem (r : ResponseRec) : String :=
  "Previous Interaction:\nTweet Context: " ++ jsShow r.prompt
    ++ "\nOur Response: " ++ jsShow r.response

/-- part_002 _getRecentContext (the document store modelled reliable, so the
catch branch is unreachable). -/
def getRecentContext (cfg : Config) (responses : List ResponseRec) (now : Nat)
    (aid : String) : String :=
  if aid == "" || aid == "N/A" then ""
  else
    let recent := (List.insertionSort createdDesc
      (responses.filter (recentFilter cfg now aid))).take cfg.recentContextLimit
    if recent.isEmpty then ""
    else "Recent Interactions with this user:\n" ++ joinSep "\n---\n" (recent.map formatRecentItem)

/-! ## Context assembler (part_002 431-573) -/

/-- The author fields buildContext uses, with the fallback identity for a
missing author. -/
structure AuthorDetails where
  username : String
  id : String
  name : Option String
deriving DecidableEq

/-- author || the fixed placeholder identity. -/
def authorOrFallback : Option Author → AuthorDetails
  | some a => ⟨a.username, a.id, a.name⟩
  | none => ⟨"Unknown", "N/A", some "Unknown Author"⟩

/-- The speaker label of a conversation line. -/
def speakerLabel (cfg : Config) (ad : AuthorDetails) (aid : String) : String :=
  if aid == cfg.twitterUserId then "Me (" ++ cfg.twitterUsername ++ ")"
  else if aid == ad.id then "@" ++ ad.username
  else "Other (" ++ aid ++ ")"

/-- One line of the conversation section. -/
def convLine (cfg : Config) (ad : AuthorDetails) : ConvEntry → String
  | .separator s => s
  | .tweet t => speakerLabel cfg ad t.author_id ++ ": " ++ t.text

/-- The text of the first thread entry carrying the target id (the source's
conversation.find(t => t.id === tweet.id)?.text; separators carry no id). -/
def findTargetText (conv : List ConvEntry) (tid : String) : Option String :=
  conv.findSome? (fun e => match e with
    | .tweet t => if t.id == tid then some t.text else none
    | .separator _ => none)

/-- The conversationText local of _formatPrompt. -/
def conversationText (cfg : Config) (ad : AuthorDetails) (conv : List ConvEntry) : String :=
  joinSep "\n" (conv.map (convLine cfg ad))

/-- The first prompt section: the author identification header. -/
def promptHeader (ad : AuthorDetails) : String :=
  "Analyze the following context involving @" ++ ad.username ++ " (ID: " ++ ad.id
    ++ ", Name: " ++ jsOrStrOpt ad.name "N/A" ++ ") and prepare a response."

/-- The last prompt section: the restated literal target tweet. -/
def promptTarget (conv : List ConvEntry) (ad : AuthorDetails) (tweet : Tweet) : String :=
  "--- Target Tweet to Respond To (@" ++ ad.username ++ ") --- \n"
    ++ jsOrStrOpt (findTargetText conv tweet.id) tweet.text

/-- part_002 _formatPrompt: fixed section order, empty sections dropped. -/
def formatPrompt (cfg : Config) (conv : List ConvEntry) (recentContext visionContext : String)
    (ad : AuthorDetails) (tweet : Tweet) : String :=
  joinSep "\n\n" (List.filterMap id
    [some (promptHeader ad),
     if recentContext = "" then none
       else some ("--- Recent Interaction History ---\n" ++ recentContext),
     if conversationText cfg ad conv = "" then none
       else some ("--- Current Conversation Thread --- \n" ++ conversationText cfg ad conv),
     if visionContext = "" then none
       else some ("--- Image Analysis --- \n" ++ visionContext),
     some (promptTarget conv ad tweet)])

/-- The catch branch of buildContext: the degraded context carrying the raw
tweet text. -/
def errorContext (ad : AuthorDetails) (tweet : Tweet) : String :=
  "Error building context for tweet " ++ tweet.id ++ " from @" ++ ad.username
    ++ ". Please analyze the tweet text directly: " ++ tweet.text

/-- part_002 buildContext: the try around the awaited gather of the three
context parts and the processed-marker write; any rejection lands in the
catch.  The gather outcome and the marker-write outcome are explicit
arguments mirroring the Promise.all and the updateOne inside the try. -/
def buildContext (cfg : Config) (tweet : Tweet) (author : Option Author)
    (gathered : Except Unit (List ConvEntry × String × String))
    (markOk : Except Unit Unit) : String :=
  match gathered, markOk with
  | .ok g, .ok _ => formatPrompt cfg g.1 g.2.1 g.2.2 (authorOrFallback author) tweet
  | _, _ => errorContext (authorOrFallback author) tweet

/-- The successful gather path assembled from the store (no gather step
rejects when the store answers: the conversation and recent-context reads
catch internally and the vision step catches per url). -/
def buildContextOk (cfg : Config) (collab : String → Except Unit String) (now : Nat)
    (tweets : List Tweet) (responses : List ResponseRec) (cache : List VisionEntry)
    (tweet : Tweet) (author : Option Author) : String :=
  buildContext cfg tweet author
    (.ok (getConversationContext tweets cfg.conversationMaxTweets tweet.id,
          getRecentContext cfg responses now (authorOrFallback author).id,
          (getVisionContext collab now cache tweet).1))
    (.ok ())

/-! ## Response upsert and processed marker (part_002 444-448, 653-671) -/

/-- The $set fields of the response upsert in part_002 main.  The
author_priority_score spread is added only when an author was found, so a
missing score leaves any existing value in place. -/
def setResponseFields (aid uname ctx : String) (score? : Option ℚ) (now : Nat)
    (r : ResponseRec) : ResponseRec :=
  { r with
    context := some ctx
    author_id := some aid
    author_username := some uname
    processed_by := some "llm_context_builder_v2"
    processed_at := some now
    author_priority_score := match score? with
      | some s => some s
      | none => r.author_priority_score }

/-- The document inserted when the upsert misses: filter key, $set fields and
$setOnInsert fields. -/
def insertResponseRec (tid aid uname ctx : String) (score? : Option ℚ) (now : Nat) : ResponseRec :=
  { tweet_id := tid
    author_id := some aid
    author_username := some uname
    context := some ctx
    prompt := none
    response := none
    processed_by := some "llm_context_builder_v2"
    processed_at := some now
    created_at := some now
    author_priority_score := score? }

/-- responses.updateOne({tweet_id}, {$set, $setOnInsert}, {upsert:true}): the
first record with the key is updated; with no match a new record is inserted. -/
def saveResponse (tid aid uname ctx : String) (score? : Option ℚ) (now : Nat) :
    List ResponseRec → List ResponseRec
  | [] => [insertResponseRec tid aid uname ctx score? now]
  | r :: rs =>
    if r.tweet_id == tid then setResponseFields aid uname ctx score? now r :: rs
    else r :: saveResponse tid aid uname ctx score? now rs

/-- How many response records carry the key. -/
def responsesKeyCount (s : List ResponseRec) (tid : String) : Nat :=
  (s.filter (fun r => r.tweet_id == tid)).length

/-- The $set of the processed marker on one tweet document. -/
def setLlm (now : Nat) (t : Tweet) : Tweet :=
  { t with processing_status := { llm_context := some true, llm_context_at := some now } }

/-- tweets.updateOne({id}, {$set: processing_status...}) inside buildContext:
the first matching document is updated. -/
def markProcessed (now : Nat) (tid : String) : List Tweet → List Tweet
  | [] => []
  | t :: ts => if t.id == tid then setLlm now t :: ts else t :: markProcessed now tid ts

/-- The processed flag of a post (llm_context set to true). -/
def llmContextFlag (t : Tweet) : Bool := t.processing_status.llm_context == some true

/-! ## Concrete fixtures -/

/-- A post with every optional field absent. -/
def baseTweet : Tweet where
  id := "t0"
  author_id := "a0"
  text := ""
  created_at := 0
  in_reply_to_user_id := none
  referenced_tweets := none
  mediaData := none
  public_metrics := none
  like_count := none
  retweet_count := none
  reply_count := none
  engagement_score := none
  processing_status := { llm_context := none, llm_context_at := none }

/-- Post A of the stored 2-cycle: replied_to points at B. -/
def cycleTweetA : Tweet :=
  { baseTweet with id := "A", referenced_tweets := some [⟨"replied_to", "B"⟩] }

/-- Post B of the stored 2-cycle: replied_to points back at A. -/
def cycleTweetB : Tweet :=
  { baseTweet with id := "B", referenced_tweets := some [⟨"replied_to", "A"⟩] }

/-- The two-post store whose reply chain is a cycle. -/
def twoCycleStore : List Tweet := [cycleTweetA, cycleTweetB]

/-- The reconstruction loop of getTweetResponseContext never terminates on the
2-cycle store, from either post and whatever was accumulated. -/
def gtrcDivergesOnTwoCycle : Prop :=
  ∀ fuel : Nat, ∀ acc : List Tweet,
    gatherConversationLoop twoCycleStore fuel cycleTweetA acc = none
    ∧ gatherConversationLoop twoCycleStore fuel cycleTweetB acc = none

/-- The n-th synthetic thread post. -/
def numberedTweet (n : Nat) : Tweet :=
  { baseTweet with id := toString n, text := "post" ++ toString n }

/-- A synthetic thread of nine posts. -/
def nineTweets : List Tweet := (List.range 9).map numberedTweet

/-- The output the claim expects for the nine-post thread at maxKept 5. -/
def claimedTrimOutput : List ConvEntry :=
  [ConvEntry.tweet (numberedTweet 0), ConvEntry.tweet (numberedTweet 1),
   ConvEntry.separator "... (4 tweets omitted) ...",
   ConvEntry.tweet (numberedTweet 7), ConvEntry.tweet (numberedTweet 8)]

/-- A configuration with short concrete account names for the fixtures. -/
def cfgTest : Config := { defaultConfig with twitterUsername := "bob", twitterUserId := "self" }

/-- A post matching both the mention and the keyword predicate. -/
def dualMatchTweet : Tweet :=
  { baseTweet with id := "d1", author_id := "a1", text := "hello @bob #AI" }

/-- The hard-coded allow-list of llm_response_context.mjs getTargetAuthors. -/
def llmAlwaysReplyTo : List String := ["theerebusai", "0xzerebro", "aihegemonymemes"]

/-- An author on the allow-list who also has a recent response record. -/
def overlapAuthor : Author :=
  { id := "a9"
    username := "TheErebusAI"
    name := none
    public_metrics := none
    followers_count := none
    tweet_count := none }

/-- The llm-variant classification of that author. -/
def overlapClassification : Classification :=
  getTargetAuthors llmAlwaysReplyTo ["a9"] [overlapAuthor]

/-- An author used to exhibit the empty ranking on aggregation failure. -/
def soloAuthor : Author :=
  { id := "s1"
    username := "solo"
    name := none
    public_metrics := none
    followers_count := some 10
    tweet_count := some 5 }

/-- A collaborator that succeeds with the empty description. -/
def emptyDescCollab : String → Except Unit String := fun _ => .ok ""

/-- A collaborator that always fails. -/
def failingCollab : String → Except Unit String := fun _ => .error ()

/-- The degraded-context witness post: plain text plus one photo. -/
def witnessTweet : Tweet :=
  { baseTweet with
    id := "w1"
    text := "hello world"
    mediaData := some [⟨"photo", "http-img-1"⟩] }

/-- An unscored post with all three flat counters, created after the cutoff. -/
def enrichTweet : Tweet :=
  { baseTweet with
    id := "e1"
    created_at := 100
    like_count := some 10
    retweet_count := some 4
    reply_count := some 2 }

/-- A post whose engagement_score is already present. -/
def scoredTweet : Tweet :=
  { baseTweet with
    id := "e2"
    created_at := 100
    like_count := some 1
    engagement_score := some 28 }

/-! ## Theorems -/

/-- One unguarded step from A: the loop moves to B, accumulating B. -/
theorem gatherStepA (n : Nat) (acc : List Tweet) :
    gatherConversationLoop twoCycleStore (n + 1) cycleTweetA acc
      = gatherConversationLoop twoCycleStore n cycleTweetB (cycleTweetB :: acc) := rfl

/-- One unguarded step from B: the loop moves back to A, accumulating A. -/
theorem gatherStepB (n : Nat) (acc : List Tweet) :
    gatherConversationLoop twoCycleStore (n + 1) cycleTweetB acc
      = gatherConversationLoop twoCycleStore n cycleTweetA (cycleTweetA :: acc) := rfl

/-- C2: the claim says the conversation reconstruction returns a finite
sequence with no post visited twice even on a stored 2-cycle.  The cited
getTweetResponseContext loop (llm_response_context.mjs 324-333) has no
visited-set guard: on the two-post cycle store it alternates between A and B
forever, never reaching a terminating case at any fuel. -/
theorem C2_reconstruction_cycle_divergence : gtrcDivergesOnTwoCycle := by
  intro fuel
  induction fuel with
  | zero => intro acc; exact ⟨rfl, rfl⟩
  | succ n ih =>
    intro acc
    constructor
    · rw [gatherStepA]
      exact (ih (cycleTweetB :: acc)).2
    · rw [gatherStepB]
      exact (ih (cycleTweetA :: acc)).1

/-- The guarded walk of part_002 does terminate on the same 2-cycle store,
returning the two posts oldest-first: the visited set stops the third visit. -/
theorem conversation_cycle_terminates :
    getConversationContext twoCycleStore 5 "A"
      = [ConvEntry.tweet cycleTweetB, ConvEntry.tweet cycleTweetA] := rfl

/-- C3 counterexample: the nine-post thread trimmed at maxKept 5 by part_002
_trimConversation is [post0, post1, post2, separator, post7, post8], not the
five-entry list the claim states. -/
theorem C3_trim_counterexample :
    trimConversation 5 nineTweets ≠ claimedTrimOutput := by decide

/-- C3 (amended): a thread longer than maxKept keeps the first ceil(maxKept/2)
posts, one separator carrying the omitted count, and the last floor(maxKept/2)
posts; a thread of at most maxKept posts is unchanged; for nine posts at
maxKept 5 the output is [post0, post1, post2, separator "... (4 tweets
omitted) ...", post7, post8]. -/
theorem C3_trimming (l s : List Tweet) (maxT : Nat) (h2 : 2 ≤ maxT)
    (hl : maxT < l.length) (hs : s.length ≤ maxT) :
    trimConversation maxT l
      = (l.take ((maxT + 1) / 2)).map ConvEntry.tweet
        ++ [ConvEntry.separator (omittedText (l.length - maxT))]
        ++ (l.drop (l.length - maxT / 2)).map ConvEntry.tweet
    ∧ trimConversation maxT s = s.map ConvEntry.tweet
    ∧ trimConversation 5 nineTweets
        = [ConvEntry.tweet (numberedTweet 0), ConvEntry.tweet (numberedTweet 1),
           ConvEntry.tweet (numberedTweet 2),
           ConvEntry.separator "... (4 tweets omitted) ...",
           ConvEntry.tweet (numberedTweet 7), ConvEntry.tweet (numberedTweet 8)] := by
  refine ⟨?_, ?_, by decide⟩
  · have hnot : ¬ l.length ≤ maxT := by omega
    have hdiv : maxT / 2 ≠ 0 := by omega
    rw [trimConversation, if_neg hnot, jsSliceLast, if_neg hdiv]
  · rw [trimConversation, if_pos hs]

/-- C3 witness at the concrete nine-post thread. -/
theorem C3_trimming_witness :
    trimConversation 5 nineTweets
      = (nineTweets.take ((5 + 1) / 2)).map ConvEntry.tweet
        ++ [ConvEntry.separator (omittedText (nineTweets.length - 5))]
        ++ (nineTweets.drop (nineTweets.length - 5 / 2)).map ConvEntry.tweet
    ∧ trimConversation 5 ([] : List Tweet) = ([] : List Tweet).map ConvEntry.tweet
    ∧ trimConversation 5 nineTweets
        = [ConvEntry.tweet (numberedTweet 0), ConvEntry.tweet (numberedTweet 1),
           ConvEntry.tweet (numberedTweet 2),
           ConvEntry.separator "... (4 tweets omitted) ...",
           ConvEntry.tweet (numberedTweet 7), ConvEntry.tweet (numberedTweet 8)] :=
  C3_trimming nineTweets [] 5 (by decide) (by decide) (by decide)

/-- C6: the claim says classify partitions the author list.  The cited
getTargetAuthors of llm_response_context.mjs filters the frequent bucket
without excluding the allow-list, so an allow-listed author with a recent
response record lands in both priority and frequent: the buckets overlap. -/
theorem C6_classification_overlap :
    overlapAuthor ∈ overlapClassification.priority
    ∧ overlapAuthor ∈ overlapClassification.frequent := by decide

/-- The part_002 classification is a partition: the three buckets concatenate
to a permutation of the input author list. -/
theorem getTargetAuthorsClassification_partition (ar fi : List String) (as : List Author) :
    ((getTargetAuthorsClassification ar fi as).priority
      ++ ((getTargetAuthorsClassification ar fi as).frequent
        ++ (getTargetAuthorsClassification ar fi as).new)).Perm as := by
  unfold getTargetAuthorsClassification
  have e1 : as.filter (fun a =>
        !ar.contains (lowerStr a.username) && fi.contains a.id)
      = (as.filter (fun a => !ar.contains (lowerStr a.username))).filter
          (fun a => fi.contains a.id) := by
    rw [List.filter_filter]
    apply List.filter_congr
    intro a _
    simp [Bool.and_comm]
  have e2 : as.filter (fun a =>
        !ar.contains (lowerStr a.username) && !fi.contains a.id)
      = (as.filter (fun a => !ar.contains (lowerStr a.username))).filter
          (fun a => !fi.contains a.id) := by
    rw [List.filter_filter]
    apply List.filter_congr
    intro a _
    simp [Bool.and_comm]
  have h1 : (as.filter (fun a =>
        !ar.contains (lowerStr a.username) && fi.contains a.id)
      ++ as.filter (fun a =>
        !ar.contains (lowerStr a.username) && !fi.contains a.id)).Perm
      (as.filter (fun a => !ar.contains (lowerStr a.username))) := by
    rw [e1, e2]
    exact List.filter_append_perm _ _
  refine List.Perm.trans (List.Perm.append_left _ h1) ?_
  exact List.filter_append_perm _ as

/-- The part_002 classification buckets are pairwise disjoint: membership in
each bucket certifies contradictory filter conditions. -/
theorem getTargetAuthorsClassification_disjoint (ar fi : List String) (as : List Author)
    (a : Author) :
    ¬ (a ∈ (getTargetAuthorsClassification ar fi as).priority
        ∧ a ∈ (getTargetAuthorsClassification ar fi as).frequent)
    ∧ ¬ (a ∈ (getTargetAuthorsClassification ar fi as).priority
        ∧ a ∈ (getTargetAuthorsClassification ar fi as).new)
    ∧ ¬ (a ∈ (getTargetAuthorsClassification ar fi as).frequent
        ∧ a ∈ (getTargetAuthorsClassification ar fi as).new) := by
  unfold getTargetAuthorsClassification
  refine ⟨?_, ?_, ?_⟩ <;> rintro ⟨hx, hy⟩ <;>
    simp only [List.mem_filter, Bool.and_eq_true, Bool.not_eq_true'] at hx hy <;>
    simp_all

/-- C7 counterexample: when the aggregation fails, prioritizeAuthors returns
the empty list, dropping every author, while the claim says the ranking still
returns every author with interactionCount zero. -/
theorem C7_counterexample :
    soloAuthor ∉ (prioritizeAuthors defaultConfig [] [soloAuthor] false).map Prod.fst := by
  simp [prioritizeAuthors]

/-- C7 (amended): on a successful aggregation, rank returns exactly the input
authors each paired with priorityScore = followers*0.5 + tweets*0.3 +
interactions*0.2 (Mongo $ifNull defaulting of missing counts, interactions the
count of matching response records), sorted descending by score; when the
aggregation (and with it the interaction join) fails, the catch returns the
empty list instead of per-author zero counts. -/
theorem C7_rank_scores_and_failure (cfg : Config) (responses : List ResponseRec)
    (authors : List Author) :
    ((prioritizeAuthors cfg responses authors true).map Prod.fst).Perm authors
    ∧ (prioritizeAuthors cfg responses authors true).Perm
        (authors.map (fun a => (a, priorityScore cfg responses a)))
    ∧ List.Sorted scoredDesc (prioritizeAuthors cfg responses authors true)
    ∧ prioritizeAuthors cfg responses authors false = [] := by
  have hperm : (prioritizeAuthors cfg responses authors true).Perm
      (authors.map (fun a => (a, priorityScore cfg responses a))) :=
    List.perm_insertionSort scoredDesc _
  refine ⟨?_, hperm, ?_, rfl⟩
  · have h := hperm.map Prod.fst
    rw [List.map_map] at h
    have h2 : (Prod.fst ∘ fun a => (a, priorityScore cfg responses a)) = id := rfl
    rw [h2, List.map_id] at h
    exact h
  · exact List.sorted_insertionSort scoredDesc _

/-- setResponseFields never touches the key. -/
theorem setResponseFields_tweet_id (aid uname ctx : String) (sc : Option ℚ) (n : Nat)
    (r : ResponseRec) : (setResponseFields aid uname ctx sc n r).tweet_id = r.tweet_id := rfl

/-- The key count after one upsert: a miss inserts exactly one record, a hit
leaves the count unchanged. -/
theorem responsesKeyCount_save (s : List ResponseRec) (tid aid uname ctx : String)
    (sc : Option ℚ) (n : Nat) :
    responsesKeyCount (saveResponse tid aid uname ctx sc n s) tid
      = if responsesKeyCount s tid = 0 then 1 else responsesKeyCount s tid := by
  induction s with
  | nil => simp [saveResponse, responsesKeyCount, insertResponseRec]
  | cons r rs ih =>
    by_cases h : r.tweet_id = tid
    · simp [saveResponse, responsesKeyCount, h, setResponseFields_tweet_id,
        List.filter_cons]
    · simp only [saveResponse, responsesKeyCount, List.filter_cons, beq_iff_eq, h,
        if_false, decide_eq_true_eq] at ih ⊢
      exact ih

/-- setLlm never touches the id. -/
theorem setLlm_id (n : Nat) (t : Tweet) : (setLlm n t).id = t.id := rfl

/-- The flag after marking twice equals the flag after marking once,
document by document. -/
theorem markProcessed_flag_stable (n1 n2 : Nat) (tid : String) (ts : List Tweet) :
    (markProcessed n2 tid (markProcessed n1 tid ts)).map llmContextFlag
      = (markProcessed n1 tid ts).map llmContextFlag := by
  induction ts with
  | nil => rfl
  | cons t ts ih =>
    by_cases h : t.id = tid
    · simp [markProcessed, h, setLlm_id, llmContextFlag, setLlm]
    · simp only [markProcessed, beq_iff_eq, h, if_false, List.map_cons]
      rw [ih]

/-- Marking with the same timestamp is literally idempotent. -/
theorem markProcessed_idem (n : Nat) (tid : String) (ts : List Tweet) :
    markProcessed n tid (markProcessed n tid ts) = markProcessed n tid ts := by
  induction ts with
  | nil => rfl
  | cons t ts ih =>
    by_cases h : t.id = tid
    · simp [markProcessed, h, setLlm_id, setLlm]
    · simp only [markProcessed, beq_iff_eq, h, if_false]
      rw [ih]

/-- C1: starting from a store with at most one response record for the post
(the unique tweet_id index), running the context build and save twice produces
exactly one response record for that post id, and the second processed-marker
update leaves every post's llm_context flag unchanged; at equal timestamps the
second marking is literally a no-op. -/
theorem C1_idempotent_upsert_and_marker (s : List ResponseRec) (tweets : List Tweet)
    (tid aid uname ctx : String) (sc : Option ℚ) (n1 n2 : Nat)
    (h : responsesKeyCount s tid ≤ 1) :
    responsesKeyCount
        (saveResponse tid aid uname ctx sc n2 (saveResponse tid aid uname ctx sc n1 s)) tid = 1
    ∧ (markProcessed n2 tid (markProcessed n1 tid tweets)).map llmContextFlag
        = (markProcessed n1 tid tweets).map llmContextFlag
    ∧ markProcessed n1 tid (markProcessed n1 tid tweets) = markProcessed n1 tid tweets := by
  refine ⟨?_, markProcessed_flag_stable n1 n2 tid tweets, markProcessed_idem n1 tid tweets⟩
  rw [responsesKeyCount_save, responsesKeyCount_save]
  interval_cases hc : responsesKeyCount s tid <;> simp

/-- C1 witness: the empty response store and a one-post collection. -/
theorem C1_idempotent_upsert_and_marker_witness :
    responsesKeyCount
        (saveResponse "t0" "a0" "u0" "ctx" none 2 (saveResponse "t0" "a0" "u0" "ctx" none 1 [])) "t0" = 1
    ∧ (markProcessed 2 "t0" (markProcessed 1 "t0" [baseTweet])).map llmContextFlag
        = (markProcessed 1 "t0" [baseTweet]).map llmContextFlag
    ∧ markProcessed 1 "t0" (markProcessed 1 "t0" [baseTweet]) = markProcessed 1 "t0" [baseTweet] :=
  C1_idempotent_upsert_and_marker [] [baseTweet] "t0" "a0" "u0" "ctx" none 1 2 (by decide)

/-- An upsert into a cache with no entry for the url appends the new entry. -/
theorem upsertVision_append (u d : String) (n : Nat) (cache : List VisionEntry)
    (hmiss : cache.find? (fun e => e.url == u) = none) :
    upsertVision u d n cache = cache ++ [⟨u, d, some n⟩] := by
  induction cache with
  | nil => rfl
  | cons e es ih =>
    rw [List.find?_cons] at hmiss
    by_cases h : (e.url == u) = true
    · simp [h] at hmiss
    · simp only [Bool.not_eq_true] at h
      simp only [h, if_false] at hmiss
      rw [upsertVision]
      simp only [h, if_false]
      rw [ih hmiss]
      rfl

/-- After that upsert, the lookup for the url is a hit on the new entry. -/
theorem visionHit_upsert (u d : String) (n : Nat) (cache : List VisionEntry)
    (hmiss : cache.find? (fun e => e.url == u) = none) (hd : d ≠ "") :
    visionHit (upsertVision u d n cache) u = some d := by
  rw [upsertVision_append u d n cache hmiss, visionHit, List.find?_append, hmiss]
  simp [hd]

/-- C8 counterexample: a collaborator succeeding with the empty description is
invoked by BOTH calls for the same url, because the persisted empty
description fails the cached?.description truthiness test, so the invocation
total for two describe calls is 2, not at most 1. -/
theorem C8_counterexample :
    ¬ ((processImage emptyDescCollab 0 [] "u").2.2
       + (processImage emptyDescCollab 0 (processImage emptyDescCollab 0 [] "u").2.1 "u").2.2
       ≤ 1) := by decide

/-- C8 (amended): when the first call misses the cache and the collaborator
returns a non-empty description, the description is persisted keyed by the
url, and a second call for the same url is a cache hit that returns the
cached description with zero collaborator invocations, whatever collaborator
is wired in for it. -/
theorem C8_cache_second_call_hit (collab collab2 : String → Except Unit String)
    (cache : List VisionEntry) (u d : String) (n1 n2 : Nat)
    (hmiss : cache.find? (fun e => e.url == u) = none)
    (hok : collab u = .ok d) (hd : d ≠ "") :
    processImage collab n1 cache u = (d, upsertVision u d n1 cache, 1)
    ∧ processImage collab2 n2 (upsertVision u d n1 cache) u
        = (d, upsertVision u d n1 cache, 0) := by
  constructor
  · rw [processImage, visionHit, hmiss, hok]
  · rw [processImage, visionHit_upsert u d n1 cache hmiss hd]

/-- C8 witness: empty cache, a collaborator answering with a fixed non-empty
description, then a failing collaborator for the second call. -/
theorem C8_cache_second_call_hit_witness :
    processImage (fun _ => .ok "a cat") 7 [] "u" = ("a cat", upsertVision "u" "a cat" 7 [], 1)
    ∧ processImage failingCollab 9 (upsertVision "u" "a cat" 7 [])
        "u" = ("a cat", upsertVision "u" "a cat" 7 [], 0) :=
  C8_cache_second_call_hit (fun _ => .ok "a cat") failingCollab [] "u" "a cat" 7 9
    rfl rfl (by decide)

/-- C10: when the lookup misses and the collaborator call for the url fails,
the operation returns the fixed fallback description and the image_visions
cache is unchanged, so a later call for the same url (with any collaborator)
misses again and re-invokes the collaborator. -/
theorem C10_failed_vision_not_cached (collab collab2 : String → Except Unit String)
    (cache : List VisionEntry) (u : String) (n1 n2 : Nat)
    (hmiss : visionHit cache u = none) (herr : collab u = .error ()) :
    processImage collab n1 cache u = (visionFallback, cache, 1)
    ∧ (processImage collab2 n2 cache u).2.2 = 1 := by
  constructor
  · rw [processImage, hmiss, herr]
  · rw [processImage, hmiss]
    cases collab2 u <;> rfl

/-- C10 witness: the empty cache, the always-failing collaborator, then the
empty-description collaborator standing in for the retry. -/
theorem C10_failed_vision_not_cached_witness :
    processImage failingCollab 3 [] "u" = (visionFallback, [], 1)
    ∧ (processImage emptyDescCollab 4 [] "u").2.2 = 1 :=
  C10_failed_vision_not_cached failingCollab emptyDescCollab [] "u" 3 4 rfl rfl

/-- C9: a post passing the enrichment filter and not individually failing gets
engagement_score = likes*2.0 + reshares*1.5 + replies*1.0 over the coalesced
counters; passing the filter certifies a raw counter present, no prior score
and creation at or after the cutoff; a post that already has a score is left
unchanged; individual bulk failures do not affect the other posts; and the
batch is the per-post map. -/
theorem C9_enrichment (cfg : Config) (startDate : Nat) (failedIds : List String) (t u : Tweet)
    (ht : needsEnrichment t startDate = true) (htf : failedIds.contains t.id = false)
    (hu : u.engagement_score.isSome = true) :
    (enrichOne cfg startDate failedIds t).engagement_score
        = some (calculateEngagementScore cfg t)
    ∧ hasAnyCounter t = true
    ∧ t.engagement_score = none
    ∧ startDate ≤ t.created_at
    ∧ enrichOne cfg startDate failedIds u = u
    ∧ enrichOne cfg startDate failedIds t = enrichOne cfg startDate [] t
    ∧ enrichTweetsWithEngagement cfg startDate failedIds [t, u]
        = [enrichOne cfg startDate failedIds t, u] := by
  have hparts := ht
  rw [needsEnrichment, Bool.and_assoc, Bool.and_eq_true, Bool.and_eq_true] at hparts
  obtain ⟨hnone, hlike, hdate⟩ := hparts
  have hu' : needsEnrichment u startDate = false := by
    rw [needsEnrichment]
    rcases h : u.engagement_score with - | v
    · rw [h] at hu
      simp at hu
    · simp
  have hu2 : enrichOne cfg startDate failedIds u = u := by
    rw [enrichOne, hu']
    simp
  refine ⟨?_, ?_, ?_, ?_, hu2, ?_, ?_⟩
  · rw [enrichOne, ht, htf]
    simp
  · rw [hasAnyCounter]
    rw [hlike]
    simp
  · exact Option.isNone_iff_eq_none.mp hnone
  · exact of_decide_eq_true hdate
  · rw [enrichOne, enrichOne, ht, htf]
    simp [List.contains]
  · rw [enrichTweetsWithEngagement]
    simp only [List.map_cons, List.map_nil, hu2]

/-- C9 witness: the unscored post with counters 10/4/2 after the cutoff, an
already-scored post, and one unrelated failing bulk item. -/
theorem C9_enrichment_witness :
    (enrichOne defaultConfig 50 ["zz"] enrichTweet).engagement_score
        = some (calculateEngagementScore defaultConfig enrichTweet)
    ∧ hasAnyCounter enrichTweet = true
    ∧ enrichTweet.engagement_score = none
    ∧ 50 ≤ enrichTweet.created_at
    ∧ enrichOne defaultConfig 50 ["zz"] scoredTweet = scoredTweet
    ∧ enrichOne defaultConfig 50 ["zz"] enrichTweet = enrichOne defaultConfig 50 [] enrichTweet
    ∧ enrichTweetsWithEngagement defaultConfig 50 ["zz"] [enrichTweet, scoredTweet]
        = [enrichOne defaultConfig 50 ["zz"] enrichTweet, scoredTweet] :=
  C9_enrichment defaultConfig 50 ["zz"] enrichTweet scoredTweet (by decide) (by decide) (by decide)

/-- The engagement formula at the spec's example counters: 10 likes, 4
reshares, 2 replies score exactly 28 under the default weights. -/
theorem engagement_determinism :
    calculateEngagementScore defaultConfig enrichTweet = 28 := by
  rw [calculateEngagementScore]
  norm_num [likeVal, retweetVal, replyVal, firstTruthyNat, enrichTweet, baseTweet, defaultConfig]

/-- filterMap id over the five prompt slots: the header stays first and the
target stays last, whichever middle sections survive. -/
theorem promptParts_shape (h t : String) (o1 o2 o3 : Option String) :
    List.filterMap id [some h, o1, o2, o3, some t]
      = h :: ((o1.toList ++ o2.toList ++ o3.toList) ++ [t]) := by
  cases o1 <;> cases o2 <;> cases o3 <;> rfl

/-- The joined string ends with the last element. -/
theorem joinSep_last_suffix (sep x : String) (l : List String) :
    x.data <:+ (joinSep sep (l ++ [x])).data := by
  induction l with
  | nil => exact List.suffix_refl _
  | cons a l2 ih =>
    cases l2 with
    | nil =>
      show x.data <:+ (a ++ sep ++ x).data
      simp only [String.data_append]
      exact List.suffix_append _ _
    | cons b l3 =>
      show x.data <:+ (a ++ sep ++ joinSep sep ((b :: l3) ++ [x])).data
      simp only [String.data_append]
      exact List.IsSuffix.trans ih (List.suffix_append _ _)

/-- Joining at least two parts with a non-empty separator is non-empty. -/
theorem joinSep_pair_ne_nil (sep x y : String) (l : List String) (hsep : sep.data ≠ []) :
    (joinSep sep (x :: (l ++ [y]))).data ≠ [] := by
  cases l with
  | nil =>
    show ((x ++ sep) ++ y).data ≠ []
    simp only [String.data_append]
    intro h
    rcases List.append_eq_nil.mp h with ⟨h1, -⟩
    rcases List.append_eq_nil.mp h1 with ⟨-, h3⟩
    exact hsep h3
  | cons b l2 =>
    show ((x ++ sep) ++ joinSep sep (b :: (l2 ++ [y]))).data ≠ []
    simp only [String.data_append]
    intro h
    rcases List.append_eq_nil.mp h with ⟨h1, -⟩
    rcases List.append_eq_nil.mp h1 with ⟨-, h3⟩
    exact hsep h3

/-- A string is contained in any string it ends. -/
theorem containsStr_of_suffix (big small : String) (h : small.data <:+ big.data) :
    containsStr big small := by
  obtain ⟨t, ht⟩ := h
  exact ⟨t, [], by rw [List.append_nil, ht]⟩

/-- The catch's degraded string contains the literal tweet text and is
non-empty. -/
theorem errorContext_contains_text (ad : AuthorDetails) (tweet : Tweet) :
    containsStr (errorContext ad tweet) tweet.text ∧ errorContext ad tweet ≠ "" := by
  constructor
  · apply containsStr_of_suffix
    rw [errorContext]
    simp only [String.data_append]
    exact List.suffix_append _ _
  · rw [errorContext]
    intro he
    have h2 := congrArg String.data he
    simp only [String.data_append] at h2
    rcases List.append_eq_nil.mp h2 with ⟨h3, -⟩
    rcases List.append_eq_nil.mp h3 with ⟨-, h4⟩
    exact absurd h4 (by decide)

/-- When the walked thread does not carry the target id (in particular when it
is empty), the formatted prompt ends with the literal tweet text and is
non-empty. -/
theorem formatPrompt_contains_text (cfg : Config) (conv : List ConvEntry)
    (rc vc : String) (ad : AuthorDetails) (tweet : Tweet)
    (htarget : jsOrStrOpt (findTargetText conv tweet.id) tweet.text = tweet.text) :
    containsStr (formatPrompt cfg conv rc vc ad tweet) tweet.text
    ∧ formatPrompt cfg conv rc vc ad tweet ≠ "" := by
  have hshape : formatPrompt cfg conv rc vc ad tweet
      = joinSep "\n\n" (promptHeader ad ::
          (((if rc = "" then none
              else some ("--- Recent Interaction History ---\n" ++ rc)).toList
            ++ (if conversationText cfg ad conv = "" then none
              else some ("--- Current Conversation Thread --- \n"
                ++ conversationText cfg ad conv)).toList
            ++ (if vc = "" then none
              else some ("--- Image Analysis --- \n" ++ vc)).toList)
          ++ [promptTarget conv ad tweet])) := by
    rw [formatPrompt, promptParts_shape]
  constructor
  · apply containsStr_of_suffix
    rw [hshape]
    have hend : tweet.text.data <:+ (promptTarget conv ad tweet).data := by
      rw [promptTarget, htarget]
      simp only [String.data_append]
      exact List.suffix_append _ _
    refine List.IsSuffix.trans hend ?_
    rw [← List.cons_append]
    exact joinSep_last_suffix "\n\n" (promptTarget conv ad tweet) _
  · rw [hshape]
    intro he
    exact joinSep_pair_ne_nil "\n\n" (promptHeader ad) (promptTarget conv ad tweet) _
      (by decide) ((congrArg String.data he).trans rfl)

/-- Walking the conversation over the empty collection yields the empty
thread: the very first lookup misses. -/
theorem getConversationContext_nil (maxT : Nat) (tid : String) :
    getConversationContext [] maxT tid = [] := by
  have h0 : 0 < maxT + 10 := by omega
  rw [getConversationContext]
  show trimConversation maxT (conversationLoop [] maxT (maxT + 10 + 1) (some tid) [] []) = []
  simp [conversationLoop, findTweet, h0, trimConversation]

/-- C4: if the awaited gather of the three context parts rejects, buildContext
returns the catch's degraded string, which contains the literal tweet text
and is non-empty; and in the claim's degraded scenario — the vision
collaborator always failing, the conversation and recent-interaction lookups
over empty collections — the success path still returns a non-empty prompt
containing the literal tweet text. -/
theorem C4_degraded_context (cfg : Config) (tweet : Tweet) (author : Option Author)
    (mark : Except Unit Unit) (collab : String → Except Unit String)
    (now : Nat) (cache : List VisionEntry)
    (hcollab : ∀ u, collab u = .error ()) :
    (containsStr (buildContext cfg tweet author (.error ()) mark) tweet.text
      ∧ buildContext cfg tweet author (.error ()) mark ≠ "")
    ∧ (containsStr (buildContextOk cfg collab now [] [] cache tweet author) tweet.text
      ∧ buildContextOk cfg collab now [] [] cache tweet author ≠ "") := by
  constructor
  · have he : buildContext cfg tweet author (.error ()) mark
        = errorContext (authorOrFallback author) tweet := by
      cases mark <;> rfl
    rw [he]
    exact errorContext_contains_text (authorOrFallback author) tweet
  · have hb : buildContextOk cfg collab now [] [] cache tweet author
        = formatPrompt cfg (getConversationContext [] cfg.conversationMaxTweets tweet.id)
            (getRecentContext cfg [] now (authorOrFallback author).id)
            ((getVisionContext collab now cache tweet).1)
            (authorOrFallback author) tweet := rfl
    rw [hb, getConversationContext_nil]
    exact formatPrompt_contains_text cfg [] _ _ (authorOrFallback author) tweet rfl

/-- C4 witness: the concrete post with one photo, no author record, the
always-failing collaborator and empty collections. -/
theorem C4_degraded_context_witness :
    (containsStr (buildContext cfgTest witnessTweet none (.error ()) (.ok ())) witnessTweet.text
      ∧ buildContext cfgTest witnessTweet none (.error ()) (.ok ()) ≠ "")
    ∧ (containsStr (buildContextOk cfgTest failingCollab 0 [] [] [] witnessTweet none)
          witnessTweet.text
      ∧ buildContextOk cfgTest failingCollab 0 [] [] [] witnessTweet none ≠ "") :=
  C4_degraded_context cfgTest witnessTweet none (.ok ()) failingCollab 0 []
    (fun _ => rfl)

/-- mapSet keeps every stored value keyed by its own id. -/
theorem mapSet_id_inv (m : List (String × Tweet)) (t : Tweet)
    (hm : ∀ p ∈ m, p.2.id = p.1) : ∀ p ∈ mapSet m t.id t, p.2.id = p.1 := by
  intro p hp
  rw [mapSet] at hp
  by_cases h : m.any (fun q => q.1 == t.id)
  · rw [if_pos h] at hp
    rcases List.mem_map.mp hp with ⟨q, hq, rfl⟩
    by_cases h2 : (q.1 == t.id) = true
    · rw [if_pos h2]
    · rw [if_neg h2]
      exact hm q hq
  · rw [if_neg h] at hp
    rcases List.mem_append.mp hp with hq | hq
    · exact hm p hq
    · rw [List.mem_singleton.mp hq]

/-- mapSet keeps the key list duplicate-free. -/
theorem mapSet_keys_nodup (m : List (String × Tweet)) (t : Tweet)
    (hn : (m.map Prod.fst).Nodup) : ((mapSet m t.id t).map Prod.fst).Nodup := by
  rw [mapSet]
  by_cases h : m.any (fun q => q.1 == t.id)
  · rw [if_pos h]
    have he : (m.map (fun p => if p.1 == t.id then (t.id, t) else p)).map Prod.fst
        = m.map Prod.fst := by
      rw [List.map_map]
      apply List.map_congr_left
      intro p _
      by_cases h2 : (p.1 == t.id) = true
      · simp only [Function.comp, if_pos h2]
        exact (beq_iff_eq.mp h2).symm
      · simp only [Function.comp, if_neg h2]
    rw [he]
    exact hn
  · rw [if_neg h, List.map_append, List.nodup_append]
    refine ⟨hn, List.nodup_singleton _, ?_⟩
    intro k hk1 hk2
    rcases List.mem_singleton.mp hk2 with rfl
    rcases List.mem_map.mp hk1 with ⟨p, hp, hpk⟩
    apply h
    rw [List.any_eq_true]
    refine ⟨p, hp, ?_⟩
    rw [hpk]
    exact beq_self_eq_true _

/-- Values keyed by distinct keys and carrying their key as id: at most one of
them has any given id. -/
theorem keyed_values_filter_le_one (m : List (String × Tweet)) (i : String)
    (hid : ∀ p ∈ m, p.2.id = p.1) (hn : (m.map Prod.fst).Nodup) :
    ((m.map Prod.snd).filter (fun v => v.id == i)).length ≤ 1 := by
  induction m with
  | nil => simp
  | cons p m ih =>
    simp only [List.map_cons, List.filter_cons]
    rw [List.map_cons, List.nodup_cons] at hn
    by_cases h : (p.2.id == i) = true
    · rw [if_pos h]
      have hrest : ((m.map Prod.snd).filter (fun v => v.id == i)).length = 0 := by
        rw [List.length_eq_zero, List.filter_eq_nil_iff]
        intro v hv
        rcases List.mem_map.mp hv with ⟨q, hq, rfl⟩
        have h1 : q.2.id = q.1 := hid q (List.mem_cons_of_mem _ hq)
        have h2 : q.1 ≠ p.1 := by
          intro hc
          exact hn.1 (hc ▸ List.mem_map_of_mem Prod.fst hq)
        have h3 : p.2.id = p.1 := hid p (List.mem_cons_self _ _)
        intro hc
        exact h2 (by rw [← h1, beq_iff_eq.mp hc, ← h3, beq_iff_eq.mp h])
      rw [List.length_cons, hrest]
    · rw [if_neg h]
      exact ih (fun q hq => hid q (List.mem_cons_of_mem _ hq)) hn.2

/-- The Map fold keeps the id-keying and key-distinctness invariants. -/
theorem foldl_mapSet_inv (l : List Tweet) :
    ∀ m, (∀ p ∈ m, p.2.id = p.1) → (m.map Prod.fst).Nodup →
      (∀ p ∈ l.foldl (fun m t => mapSet m t.id t) m, p.2.id = p.1)
      ∧ ((l.foldl (fun m t => mapSet m t.id t) m).map Prod.fst).Nodup := by
  induction l with
  | nil => exact fun m h1 h2 => ⟨h1, h2⟩
  | cons t l ih =>
    intro m h1 h2
    exact ih (mapSet m t.id t) (mapSet_id_inv m t h1) (mapSet_keys_nodup m t h2)

/-- Every value of the Map fold satisfies any property shared by the initial
values and the inserted tweets. -/
theorem foldl_mapSet_values (P : Tweet → Prop) (l : List Tweet) :
    ∀ m, (∀ p ∈ m, P p.2) → (∀ t ∈ l, P t) →
      ∀ p ∈ l.foldl (fun m t => mapSet m t.id t) m, P p.2 := by
  induction l with
  | nil => exact fun m hm _ p hp => hm p hp
  | cons t l ih =>
    intro m hm hl
    apply ih (mapSet m t.id t)
    · intro p hp
      rw [mapSet] at hp
      by_cases h : m.any (fun q => q.1 == t.id)
      · rw [if_pos h] at hp
        rcases List.mem_map.mp hp with ⟨q, hq, rfl⟩
        by_cases h2 : (q.1 == t.id) = true
        · rw [if_pos h2]
          exact hl t (List.mem_cons_self _ _)
        · rw [if_neg h2]
          exact hm q hq
      · rw [if_neg h] at hp
        rcases List.mem_append.mp hp with hq | hq
        · exact hm p hq
        · rw [List.mem_singleton.mp hq]
          exact hl t (List.mem_cons_self _ _)
    · exact fun x hx => hl x (List.mem_cons_of_mem _ hx)

/-- part_002's selector output carries at most one post per id: the Map
de-duplicates the union of the three queries. -/
theorem getPrioritizedTweets_at_most_once (cfg : Config) (tweets : List Tweet) (i : String) :
    ((getPrioritizedTweets cfg tweets).filter (fun t => t.id == i)).length ≤ 1 := by
  rw [getPrioritizedTweets, jsMapValues]
  have h := foldl_mapSet_inv
    (mentionQuery cfg tweets ++ replyQuery cfg tweets ++ keywordQuery cfg tweets) []
    (by simp) (by simp)
  exact keyed_values_filter_le_one _ i h.1 h.2

/-- A query's sorted-and-limited output draws from its filter result. -/
theorem sortLimit_subset (cfg : Config) (l : List Tweet) : sortLimit cfg l ⊆ l := by
  intro u hu
  exact (List.perm_insertionSort tweetBefore l).subset (List.take_subset _ _ hu)

/-- Every selected post came from one of the three queries. -/
theorem getPrioritizedTweets_source (cfg : Config) (tweets : List Tweet) (u : Tweet)
    (hu : u ∈ getPrioritizedTweets cfg tweets) :
    u ∈ mentionQuery cfg tweets ++ replyQuery cfg tweets ++ keywordQuery cfg tweets := by
  rw [getPrioritizedTweets, jsMapValues] at hu
  rcases List.mem_map.mp hu with ⟨p, hp, rfl⟩
  exact foldl_mapSet_values
    (· ∈ mentionQuery cfg tweets ++ replyQuery cfg tweets ++ keywordQuery cfg tweets) _ []
    (by simp) (fun t ht => ht) p hp

/-- Every selected post obeys the shared exclusions: not the operating
account's own post, not already context-built. -/
theorem getPrioritizedTweets_excludes (cfg : Config) (tweets : List Tweet) (u : Tweet)
    (hu : u ∈ getPrioritizedTweets cfg tweets) :
    u.author_id ≠ cfg.twitterUserId ∧ u.processing_status.llm_context ≠ some true := by
  have hsrc := getPrioritizedTweets_source cfg tweets u hu
  have hcf : commonFilter cfg u = true := by
    have hin : ∀ l : List Tweet, ∀ p : Tweet → Bool,
        u ∈ sortLimit cfg (tweets.filter (fun t => commonFilter cfg t && p t)) →
        commonFilter cfg u = true := by
      intro l p hmem
      have h3 := (List.mem_filter.mp (sortLimit_subset cfg _ hmem)).2
      rw [Bool.and_eq_true] at h3
      exact h3.1
    rcases List.mem_append.mp hsrc with h | h
    · rcases List.mem_append.mp h with h1 | h1
      · exact hin tweets (matchesMention cfg) h1
      · exact hin tweets (matchesReply cfg) h1
    · exact hin tweets (matchesKeyword cfg) h
  rw [commonFilter, Bool.and_eq_true] at hcf
  constructor
  · exact bne_iff_ne.mp hcf.1
  · intro hc
    rw [Bool.not_eq_true'] at hcf
    have := hcf.2
    rw [hc] at this
    simp at this

/-- With nothing matching any predicate, the selector returns the empty list
(not an error). -/
theorem getPrioritizedTweets_empty (cfg : Config) (tweets : List Tweet)
    (hm : ∀ t ∈ tweets, (commonFilter cfg t && matchesMention cfg t) = false)
    (hr : ∀ t ∈ tweets, (commonFilter cfg t && matchesReply cfg t) = false)
    (hk : ∀ t ∈ tweets, (commonFilter cfg t && matchesKeyword cfg t) = false) :
    getPrioritizedTweets cfg tweets = [] := by
  have e1 : tweets.filter (fun t => commonFilter cfg t && matchesMention cfg t) = [] := by
    rw [List.filter_eq_nil_iff]
    intro t ht
    simp [hm t ht]
  have e2 : tweets.filter (fun t => commonFilter cfg t && matchesReply cfg t) = [] := by
    rw [List.filter_eq_nil_iff]
    intro t ht
    simp [hr t ht]
  have e3 : tweets.filter (fun t => commonFilter cfg t && matchesKeyword cfg t) = [] := by
    rw [List.filter_eq_nil_iff]
    intro t ht
    simp [hk t ht]
  rw [getPrioritizedTweets, mentionQuery, replyQuery, keywordQuery, e1, e2, e3]
  simp [sortLimit, jsMapValues, List.insertionSort, List.take_nil]

/-- C5: the claim says a post matching more than one predicate appears exactly
once in the returned sequence.  The cited part_004 getPrioritizedTweets
concatenates the three query results with no de-duplication step: a post
matching both the mention and the keyword predicate is returned twice. -/
theorem C5_selector_duplicate :
    getPrioritizedTweetsNoDedup cfgTest [dualMatchTweet] = [dualMatchTweet, dualMatchTweet]
    ∧ ((getPrioritizedTweetsNoDedup cfgTest [dualMatchTweet]).filter
        (fun t => t.id == dualMatchTweet.id)).length = 2 := by
  constructor <;> decide

/-- part_002's selector on the very same input returns the post once. -/
theorem getPrioritizedTweets_dedups_example :
    getPrioritizedTweets cfgTest [dualMatchTweet] = [dualMatchTweet] := by decide

/-- The key written by mapSet is among the keys afterwards. -/
theorem mapSet_key_mem (m : List (String × Tweet)) (t : Tweet) :
    t.id ∈ (mapSet m t.id t).map Prod.fst := by
  rw [mapSet]
  by_cases h : m.any (fun q => q.1 == t.id)
  · rw [if_pos h, List.map_map]
    rcases List.any_eq_true.mp h with ⟨q, hq, hq2⟩
    refine List.mem_map.mpr ⟨q, hq, ?_⟩
    simp only [Function.comp, if_pos hq2]
  · rw [if_neg h, List.map_append]
    apply List.mem_append_right
    simp

/-- mapSet loses no key. -/
theorem mapSet_key_mono (m : List (String × Tweet)) (t : Tweet) (k : String)
    (hk : k ∈ m.map Prod.fst) : k ∈ (mapSet m t.id t).map Prod.fst := by
  rw [mapSet]
  by_cases h : m.any (fun q => q.1 == t.id)
  · rw [if_pos h, List.map_map]
    rcases List.mem_map.mp hk with ⟨q, hq, rfl⟩
    refine List.mem_map.mpr ⟨q, hq, ?_⟩
    by_cases h2 : (q.1 == t.id) = true
    · simp only [Function.comp, if_pos h2]
      exact (beq_iff_eq.mp h2).symm
    · simp only [Function.comp, if_neg h2]
  · rw [if_neg h, List.map_append]
    exact List.mem_append_left _ hk

/-- Every inserted tweet's id survives the whole Map fold. -/
theorem foldl_mapSet_key_mem (l : List Tweet) :
    ∀ (m : List (String × Tweet)) (t : Tweet), t ∈ l ∨ t.id ∈ m.map Prod.fst →
      t.id ∈ (l.foldl (fun m t => mapSet m t.id t) m).map Prod.fst := by
  induction l with
  | nil =>
    intro m t h
    rcases h with h | h
    · cases h
    · exact h
  | cons x l ih =>
    intro m t h
    apply ih (mapSet m x.id x) t
    rcases h with h | h
    · rcases List.mem_cons.mp h with rfl | h2
      · right
        exact mapSet_key_mem m t
      · left
        exact h2
    · right
      exact mapSet_key_mono m x t.id h

/-- A post reaching any of the three queries appears in part_002's selector
output exactly once (by id): the union is de-duplicated and nothing matched is
dropped by the Map. -/
theorem getPrioritizedTweets_exactly_once (cfg : Config) (tweets : List Tweet) (t : Tweet)
    (ht : t ∈ mentionQuery cfg tweets ++ replyQuery cfg tweets ++ keywordQuery cfg tweets) :
    ((getPrioritizedTweets cfg tweets).filter (fun u => u.id == t.id)).length = 1 := by
  have h1 := getPrioritizedTweets_at_most_once cfg tweets t.id
  have hmem : ∃ u ∈ getPrioritizedTweets cfg tweets, u.id = t.id := by
    rw [getPrioritizedTweets, jsMapValues]
    have hkey := foldl_mapSet_key_mem
      (mentionQuery cfg tweets ++ replyQuery cfg tweets ++ keywordQuery cfg tweets)
      [] t (Or.inl ht)
    rcases List.mem_map.mp hkey with ⟨p, hp, hpfst⟩
    have hinv := (foldl_mapSet_inv
      (mentionQuery cfg tweets ++ replyQuery cfg tweets ++ keywordQuery cfg tweets)
      [] (by simp) (by simp)).1
    exact ⟨p.2, List.mem_map_of_mem Prod.snd hp, by rw [hinv p hp, hpfst]⟩
  rcases hmem with ⟨u, hu, hid⟩
  have h2 : u ∈ (getPrioritizedTweets cfg tweets).filter (fun v => v.id == t.id) :=
    List.mem_filter.mpr ⟨hu, by rw [hid]; exact beq_self_eq_true _⟩
  have h3 : 0 < ((getPrioritizedTweets cfg tweets).filter (fun v => v.id == t.id)).length :=
    List.length_pos.mpr (List.ne_nil_of_mem h2)
  omega

/-- The tweet findTweet returns carries the looked-up id. -/
theorem findTweet_id (store : List Tweet) (tid : String) (tw : Tweet)
    (h : findTweet store tid = some tw) : tw.id = tid := by
  rw [findTweet] at h
  have hp := @List.find?_some Tweet (fun t => t.id == tid) tw store h
  exact beq_iff_eq.mp hp

/-- The guarded walk of part_002 never visits a post twice: the accumulated
posts carry pairwise distinct ids whenever the accumulated ids are distinct
and already in the visited set. -/
theorem conversationLoop_nodup (store : List Tweet) (maxT : Nat) :
    ∀ (fuel : Nat) (cur? : Option String) (visited : List String) (acc : List Tweet),
      (acc.map Tweet.id).Nodup → (∀ i ∈ acc.map Tweet.id, i ∈ visited) →
      ((conversationLoop store maxT fuel cur? visited acc).map Tweet.id).Nodup := by
  intro fuel
  induction fuel with
  | zero => exact fun cur? visited acc h1 _ => h1
  | succ n ih =>
    intro cur? visited acc h1 h2
    cases cur? with
    | none => exact h1
    | some cur =>
      rw [conversationLoop]
      by_cases hc : (decide (acc.length < maxT + 10) && !visited.contains cur) = true
      · rw [if_pos hc]
        cases hf : findTweet store cur with
        | none => exact h1
        | some tw =>
          have htw : tw.id = cur := findTweet_id store cur tw hf
          have hnv : cur ∉ visited := by
            rcases Bool.and_eq_true _ _ ▸ hc with ⟨-, hc2⟩
            rw [Bool.not_eq_true'] at hc2
            intro hmem
            have he : List.elem cur visited = true := List.elem_iff.mpr hmem
            have hco : visited.contains cur = true := he
            rw [hc2] at hco
            exact Bool.false_ne_true hco
          apply ih (repliedToNext tw) (cur :: visited) (tw :: acc)
          · rw [List.map_cons, List.nodup_cons, htw]
            exact ⟨fun hmem => hnv (h2 cur hmem), h1⟩
          · intro i hi
            rw [List.map_cons, htw] at hi
            rcases List.mem_cons.mp hi with rfl | hi2
            · exact List.mem_cons_self _ _
            · exact List.mem_cons_of_mem _ (h2 i hi2)
      · rw [if_neg hc]
        exact h1

/-- The full reconstruction of part_002 visits no post id twice. -/
theorem getConversationContext_no_revisit (store : List Tweet) (maxT : Nat) (tid : String) :
    ((conversationLoop store maxT (maxT + 11) (some tid) [] []).map Tweet.id).Nodup :=
  conversationLoop_nodup store maxT (maxT + 11) (some tid) [] []
    (by simp) (by simp)

end XOutpost
